import Mathlib

/-!
Verification of the core model/solver modules of the wealth-of-cities
repository (src/models.py, src/solvers.py), via a shallow embedding.

The sympy layer is embedded as follows: a symbolic expression over the
global placeholders (DeferredVectors P, Y, W, M, theta and the scalar
symbols f, beta, phi, tau) is a function from a valuation of those
placeholders (an `Env`) to a real number.  A `Model` instance is a
`ModelState` record holding the same attributes as the Python object,
including the private cache slots; Python property accesses that fill a
cache become explicit state-passing functions.  Python errors
(AttributeError raised by the validators, TypeError raised on a bad
function call) become `Except` results.
-/

namespace WealthOfCities

/-- Valuation of the global symbolic placeholders of models.py:
the DeferredVectors P (nominal_price_level), Y (nominal_gdp),
W (nominal_wage), M (num_firms), theta (elasticity_substitution) and the
scalar symbols f, beta, phi, tau. -/
structure Env where
  P : ℕ → ℝ
  Y : ℕ → ℝ
  W : ℕ → ℝ
  M : ℕ → ℝ
  f : ℝ
  beta : ℝ
  phi : ℝ
  tau : ℝ
  theta : ℕ → ℝ

/-- A symbolic endogenous variable: one entry of one of the four
DeferredVectors P, Y, W, M. -/
inductive SymVar where
  | P (h : ℕ)
  | Y (h : ℕ)
  | W (h : ℕ)
  | M (h : ℕ)
deriving DecidableEq, Repr

/-- A Python value appearing in a params dictionary or passed to a
compiled (lambdified) numeric function: a scalar or a 1-d array. -/
inductive PyVal where
  | num (x : ℝ)
  | arr (xs : List ℝ)

/-- Failure modes of binding call arguments to the parameters of a
Python function (the checks CPython performs on a call). -/
inductive CallError where
  | tooManyPositional
  | unexpectedKeyword (name : String)
  | multipleValues (name : String)
  | missingArgument
deriving DecidableEq, Repr

/-- Error kinds raised by the embedded code.  models.py raises
AttributeError from both validators; the spec names those kinds
InvalidCityCount and InvalidParams.  A TypeError arises from a call
whose arguments do not bind to the callee's parameters, and an
AttributeError from reading an attribute an object does not have. -/
inductive PyError where
  | invalidCityCount
  | invalidParams
  | attributeMissing (name : String)
  | typeError (e : CallError)
deriving DecidableEq, Repr

/-- The state of a models.Model instance: the attributes set by
__init__ and the setters, plus the four private cache slots initialised
to None, plus the `number_cities` slot that solvers.py assigns to
(models.Model defines no such property, so the assignment creates a
plain attribute that is absent until first assigned). -/
structure ModelState where
  N : ℕ
  params : List (String × PyVal)
  population : List ℝ
  physDistFull : List (List ℝ)
  cacheEqns : Option (List (Env → ℝ))
  cacheJac : Option (List (List (Env → ℝ)))
  cacheSystem : Option (List (Env → ℝ))
  cacheVars : Option (List SymVar)
  numberCitiesAttr : Option ℕ

noncomputable section

/-- models.Model.physical_distances property getter: the stored array
sliced to its leading N×N block. -/
def ModelState.physical_distances (m : ModelState) : List (List ℝ) :=
  (m.physDistFull.take m.N).map (fun row => row.take m.N)

/-- models.Model.economic_distances property getter:
np.exp(self.physical_distances)**tau, elementwise, with tau the
symbolic placeholder (so each entry is a symbolic expression). -/
def ModelState.economic_distances (m : ModelState) : List (List (Env → ℝ)) :=
  m.physical_distances.map (fun row => row.map (fun d => fun e => Real.exp d ^ e.tau))

/-- Entry (h, j) of a matrix of symbolic expressions (junk value, the
zero expression, out of range). -/
def matEntry (A : List (List (Env → ℝ))) (h j : ℕ) : Env → ℝ :=
  (A.getD h []).getD j (fun _ => 0)

/-- Entry h of a row of symbolic expressions (junk out of range). -/
def rowEntry (l : List (Env → ℝ)) (h : ℕ) : Env → ℝ :=
  l.getD h (fun _ => 0)

/-- models.Model.effective_labor_supply property getter:
sym.Matrix([beta * self.population]) — the symbol beta times the FULL
stored population attribute (models.Model stores population as a plain
attribute and this property does not slice it to N entries). -/
def ModelState.effective_labor_supply (m : ModelState) : List (Env → ℝ) :=
  m.population.map (fun p => fun e => e.beta * p)

/-- models.Model.mark_up. -/
def mark_up (j : ℕ) : Env → ℝ :=
  fun e => e.theta j / (e.theta j - 1)

/-- models.Model.labor_productivity. -/
def ModelState.labor_productivity (m : ModelState) (h j : ℕ) : Env → ℝ :=
  fun e => e.phi / matEntry m.economic_distances h j e

/-- models.Model.marginal_costs. -/
def ModelState.marginal_costs (m : ModelState) (h j : ℕ) : Env → ℝ :=
  fun e => e.W h / m.labor_productivity h j e

/-- models.Model.optimal_price. -/
def ModelState.optimal_price (m : ModelState) (h j : ℕ) : Env → ℝ :=
  fun e => mark_up j e * m.marginal_costs h j e

/-- models.Model.relative_price. -/
def relative_price (price : Env → ℝ) (j : ℕ) : Env → ℝ :=
  fun e => price e / e.P j

/-- models.Model.real_gdp. -/
def real_gdp (i : ℕ) : Env → ℝ :=
  fun e => e.Y i / e.P i

/-- models.Model.quantity_demand. -/
def quantity_demand (price : Env → ℝ) (j : ℕ) : Env → ℝ :=
  fun e => relative_price price j e ^ (-(e.theta j)) * real_gdp j e

/-- models.Model.revenue. -/
def revenue (price quantity : Env → ℝ) : Env → ℝ :=
  fun e => price e * quantity e

/-- models.Model.total_exports: for each j, revenue of a firm of city h
selling into city j times num_firms[h], summed over j. -/
def ModelState.total_exports (m : ModelState) (h : ℕ) : Env → ℝ :=
  fun e =>
    ((List.range m.N).map (fun j =>
      e.M h * revenue (m.optimal_price h j) (quantity_demand (m.optimal_price h j) j) e)).sum

/-- models.Model.total_imports: for each j, revenue of a firm of city j
selling into city h times num_firms[j], summed over j. -/
def ModelState.total_imports (m : ModelState) (h : ℕ) : Env → ℝ :=
  fun e =>
    ((List.range m.N).map (fun j =>
      e.M j * revenue (m.optimal_price j h) (quantity_demand (m.optimal_price j h) h) e)).sum

/-- models.Model.goods_market_clearing. -/
def ModelState.goods_market_clearing (m : ModelState) (h : ℕ) : Env → ℝ :=
  fun e => m.total_exports h e - m.total_imports h e

/-- models.Model.total_revenue. -/
def ModelState.total_revenue (m : ModelState) (h : ℕ) : Env → ℝ :=
  fun e =>
    ((List.range m.N).map (fun j =>
      revenue (m.optimal_price h j) (quantity_demand (m.optimal_price h j) j) e)).sum

/-- models.Model.variable_labor_demand. -/
def ModelState.variable_labor_demand (m : ModelState) (quantity : Env → ℝ) (h j : ℕ) :
    Env → ℝ :=
  fun e => quantity e / m.labor_productivity h j e

/-- models.Model.variable_cost. -/
def ModelState.variable_cost (m : ModelState) (quantity : Env → ℝ) (h j : ℕ) : Env → ℝ :=
  fun e => m.variable_labor_demand quantity h j e * e.W h

/-- models.Model.total_variable_cost. -/
def ModelState.total_variable_cost (m : ModelState) (h : ℕ) : Env → ℝ :=
  fun e =>
    ((List.range m.N).map (fun j =>
      m.variable_cost (quantity_demand (m.optimal_price h j) j) h j e)).sum

/-- models.Model.total_fixed_cost. -/
def total_fixed_cost (h : ℕ) : Env → ℝ :=
  fun e => e.f * e.W h

/-- models.Model.total_cost. -/
def ModelState.total_cost (m : ModelState) (h : ℕ) : Env → ℝ :=
  fun e => m.total_variable_cost h e + total_fixed_cost h e

/-- models.Model.total_profits. -/
def ModelState.total_profits (m : ModelState) (h : ℕ) : Env → ℝ :=
  fun e => m.total_revenue h e - m.total_cost h e

/-- models.Model.total_variable_labor_demand. -/
def ModelState.total_variable_labor_demand (m : ModelState) (h : ℕ) : Env → ℝ :=
  fun e =>
    e.M h * ((List.range m.N).map (fun j =>
      m.variable_labor_demand (quantity_demand (m.optimal_price h j) j) h j e)).sum

/-- models.Model.total_fixed_labor_demand. -/
def total_fixed_labor_demand (h : ℕ) : Env → ℝ :=
  fun e => e.M h * e.f

/-- models.Model.total_labor_demand. -/
def ModelState.total_labor_demand (m : ModelState) (h : ℕ) : Env → ℝ :=
  fun e => m.total_variable_labor_demand h e + total_fixed_labor_demand h e

/-- models.Model.labor_market_clearing. -/
def ModelState.labor_market_clearing (m : ModelState) (h : ℕ) : Env → ℝ :=
  fun e => rowEntry m.effective_labor_supply h e - m.total_labor_demand h e

/-- models.Model.resource_constraint. -/
def ModelState.resource_constraint (m : ModelState) (h : ℕ) : Env → ℝ :=
  fun e => e.Y h - rowEntry m.effective_labor_supply h e * e.W h

/-- models.Model._symbolic_equations (the list that the property caches):
goods-market-clearing for h in range(1, N), then total_profits,
labor_market_clearing and resource_constraint each for h in range(N). -/
def ModelState.symbolic_equations (m : ModelState) : List (Env → ℝ) :=
  ((List.range' 1 (m.N - 1)).map m.goods_market_clearing) ++
  ((List.range m.N).map m.total_profits) ++
  ((List.range m.N).map m.labor_market_clearing) ++
  ((List.range m.N).map m.resource_constraint)

/-- models.Model._symbolic_variables (the list that the property caches):
P[h] for h in range(1, N), then Y[h], W[h], M[h] each for h in range(N). -/
def symbolic_variables (N : ℕ) : List SymVar :=
  ((List.range' 1 (N - 1)).map SymVar.P) ++
  ((List.range N).map SymVar.Y) ++
  ((List.range N).map SymVar.W) ++
  ((List.range N).map SymVar.M)

/-- Value of a symbolic variable under a valuation. -/
def Env.readVar (e : Env) : SymVar → ℝ
  | .P j => e.P j
  | .Y j => e.Y j
  | .W j => e.W j
  | .M j => e.M j

/-- Valuation with one symbolic variable set to a given value. -/
def Env.updateVar (e : Env) : SymVar → ℝ → Env
  | .P j, t => { e with P := Function.update e.P j t }
  | .Y j, t => { e with Y := Function.update e.Y j t }
  | .W j, t => { e with W := Function.update e.W j t }
  | .M j, t => { e with M := Function.update e.M j t }

/-- The sympy Matrix.jacobian operation on the embedded expressions:
entry (i, k) is the partial derivative of equation i with respect to
endogenous variable k. -/
def jacobianOf (eqns : List (Env → ℝ)) (vars : List SymVar) : List (List (Env → ℝ)) :=
  eqns.map (fun eq => vars.map (fun v =>
    fun e => deriv (fun t => eq (e.updateVar v t)) (e.readVar v)))

/-- models.Model._clear_cache: reset all four private cache slots. -/
def ModelState.clear_cache (m : ModelState) : ModelState :=
  { m with cacheEqns := none, cacheJac := none, cacheSystem := none, cacheVars := none }

/-- Access of the models.Model._symbolic_equations property: return the
cached list if present, otherwise build it and fill the cache. -/
def ModelState.access_symbolic_equations (m : ModelState) : (List (Env → ℝ)) × ModelState :=
  match m.cacheEqns with
  | some eqns => (eqns, m)
  | none => (m.symbolic_equations, { m with cacheEqns := some m.symbolic_equations })

/-- Access of the models.Model._symbolic_variables property: return the
cached list if present, otherwise build it and fill the cache. -/
def ModelState.access_symbolic_variables (m : ModelState) : (List SymVar) × ModelState :=
  match m.cacheVars with
  | some vars => (vars, m)
  | none => (symbolic_variables m.N, { m with cacheVars := some (symbolic_variables m.N) })

/-- Access of the models.Model._symbolic_system property: wraps
_symbolic_equations in a sym.Matrix (a column, embedded as the same
list); it reads the equations through their caching property and does
not fill its own cache slot. -/
def ModelState.access_symbolic_system (m : ModelState) : (List (Env → ℝ)) × ModelState :=
  m.access_symbolic_equations

/-- Access of the models.Model._symbolic_jacobian property: return the
cached matrix if present, otherwise differentiate the system with
respect to the variable list and fill the cache. -/
def ModelState.access_symbolic_jacobian (m : ModelState) :
    (List (List (Env → ℝ))) × ModelState :=
  match m.cacheJac with
  | some jac => (jac, m)
  | none =>
    let s := m.access_symbolic_system
    let v := s.2.access_symbolic_variables
    let jac := jacobianOf s.1 v.1
    (jac, { v.2 with cacheJac := some jac })

/-- A Python value assigned to Model.N: an int or something that is not
an int. -/
inductive PyNum where
  | int (z : ℤ)
  | notInt
deriving DecidableEq, Repr

/-- models.Model._validate_number_cities: AttributeError (spec kind
InvalidCityCount) unless the value is an int that is at least 1. -/
def validate_number_cities : PyNum → Except PyError ℤ
  | .notInt => .error .invalidCityCount
  | .int z => if z < 1 then .error .invalidCityCount else .ok z

/-- models.Model.N setter: validate, store, then clear all caches. -/
def ModelState.set_N (m : ModelState) (value : PyNum) : Except PyError ModelState :=
  (validate_number_cities value).map
    (fun z => ModelState.clear_cache { m with N := z.toNat })

/-- A Python value assigned to Model.params: a dict (an association
list of keys and values, in insertion order) or a non-dict object. -/
inductive ParamsArg where
  | dict (entries : List (String × PyVal))
  | nondict

/-- models.Model._validate_params: required_params = ['f', 'beta',
'phi', 'tau']. -/
def required_params : List String := ["f", "beta", "phi", "tau"]

/-- models.Model._validate_params: AttributeError (spec kind
InvalidParams) unless the value is a dict whose key set contains every
required parameter name (subset check, so extra keys pass); the dict is
returned unchanged. -/
def validate_params : ParamsArg → Except PyError (List (String × PyVal))
  | .nondict => .error .invalidParams
  | .dict entries =>
    if required_params.all (fun k => (entries.map Prod.fst).contains k) then .ok entries
    else .error .invalidParams

/-- models.Model.params setter: validate and store; it does NOT clear
the caches. -/
def ModelState.set_params (m : ModelState) (value : ParamsArg) : Except PyError ModelState :=
  (validate_params value).map (fun d => { m with params := d })

/-- models.Model.population: plain attribute assignment (no property,
no validation, no cache clearing). -/
def ModelState.set_population (m : ModelState) (p : List ℝ) : ModelState :=
  { m with population := p }

/-- models.Model.physical_distances setter: store the array (no
validation, no cache clearing). -/
def ModelState.set_physical_distances (m : ModelState) (A : List (List ℝ)) : ModelState :=
  { m with physDistFull := A }

/-- Assignment model.number_cities = value, as performed by
solvers.InitialGuess.number_cities and HotStartGuess.guess:
models.Model defines no number_cities property, so this creates or
overwrites a plain attribute and touches neither Model.N nor the
caches. -/
def ModelState.set_number_cities (m : ModelState) (value : ℕ) : ModelState :=
  { m with numberCitiesAttr := some value }

/-- Parameter names of the numeric function sym.lambdify builds from
models.Model._symbolic_args: the tuple (nominal_price_level,
nominal_gdp, nominal_wage, num_firms) + (f, beta, phi, tau,
elasticity_substitution), whose symbols are named P, Y, W, M, f, beta,
phi, tau, theta.  There is no population parameter. -/
def symbolic_args_names : List String := ["P", "Y", "W", "M", "f", "beta", "phi", "tau", "theta"]

/-- Keyword-argument check of a Python call: each keyword must name a
parameter, and must not name a parameter already filled positionally. -/
def check_keywords (paramNames : List String) (npos : ℕ) :
    List String → Except CallError Unit
  | [] => .ok ()
  | k :: rest =>
    match paramNames.findIdx? (fun s => s = k) with
    | none => .error (.unexpectedKeyword k)
    | some i =>
      if i < npos then .error (.multipleValues k)
      else check_keywords paramNames npos rest

/-- Binding of a Python call with npos positional arguments and the
given keyword names to a function with the given parameter list (no
defaults, no *args): TypeError conditions of CPython. -/
def py_call_bind (paramNames : List String) (npos : ℕ) (kws : List String) :
    Except CallError Unit :=
  if paramNames.length < npos then .error .tooManyPositional
  else
    match check_keywords paramNames npos kws with
    | .error err => .error err
    | .ok _ =>
      if (paramNames.drop npos).all (fun p => kws.contains p) then .ok ()
      else .error .missingArgument

/-- A Python value broadcast to an indexed family, as numpy treats an
argument substituted for a DeferredVector. -/
def PyVal.toFun : PyVal → (ℕ → ℝ)
  | .num x => fun _ => x
  | .arr xs => fun i => xs.getD i 0

/-- A Python value read as a scalar. -/
def PyVal.toNum : PyVal → ℝ
  | .num x => x
  | .arr xs => xs.getD 0 0

/-- First value stored under a key in an association list (junk 0.0
when absent). -/
def dict_get (d : List (String × PyVal)) (k : String) : PyVal :=
  (((d.find? (fun kv => kv.1 = k)).map Prod.snd).getD (.num 0))

/-- solvers.Solver.system: read self.model.number_cities
(AttributeError if that attribute was never assigned), slice X into the
four blocks with 1.0 prepended to the price block, then call the
compiled system function with the five positional arguments
(P, Y, W, M, self.model.population) and the model's params dict as
keyword arguments, and ravel the result.  The compiled function's
parameters are symbolic_args_names. -/
def ModelState.solver_system (m : ModelState) (X : List ℝ) : Except PyError (List ℝ) :=
  match m.numberCitiesAttr with
  | none => .error (.attributeMissing "number_cities")
  | some nc =>
    let P : List ℝ := (1 : ℝ) :: X.take (nc - 1)
    let Y : List ℝ := (X.drop (nc - 1)).take nc
    let W : List ℝ := (X.drop (2 * nc - 1)).take nc
    let M : List ℝ := X.drop (3 * nc - 1)
    let positional : List PyVal := [.arr P, .arr Y, .arr W, .arr M, .arr m.population]
    match py_call_bind symbolic_args_names positional.length (m.params.map Prod.fst) with
    | .error err => .error (.typeError err)
    | .ok _ =>
      let bound : List (String × PyVal) := (symbolic_args_names.zip positional) ++ m.params
      let e : Env :=
        { P := (dict_get bound "P").toFun
          Y := (dict_get bound "Y").toFun
          W := (dict_get bound "W").toFun
          M := (dict_get bound "M").toFun
          f := (dict_get bound "f").toNum
          beta := (dict_get bound "beta").toNum
          phi := (dict_get bound "phi").toNum
          tau := (dict_get bound "tau").toNum
          theta := (dict_get bound "theta").toFun }
      .ok (m.symbolic_equations.map (fun eq => eq e))

/-- Closed-form single-city equilibrium wage.  This is the solution for
W[0] of the three reduced N=1 equations (total_profits,
labor_market_clearing, resource_constraint with price level P), the
expression sym.solve computes at runtime in
SingleCityModel._symbolic_solution; d is the city's physical
self-distance entry and pop its population. -/
def island_wage (d pop P fv bv pv tv thv : ℝ) : ℝ :=
  (pv / Real.exp d ^ tv * fv * (thv - 1) * P *
    (thv / (thv - 1) / (pv / Real.exp d ^ tv * P)) ^ thv / (bv * pop)) ^ (1 / (1 - thv))

/-- Closed-form single-city equilibrium nominal GDP: the resource
constraint gives Y[0] = beta * pop * W[0]. -/
def island_gdp (d pop P fv bv pv tv thv : ℝ) : ℝ :=
  bv * pop * island_wage d pop P fv bv pv tv thv

/-- Closed-form single-city equilibrium number of firms:
M[0] = beta * pop / (f * theta[0]). -/
def island_firms (pop fv bv thv : ℝ) : ℝ :=
  bv * pop / (fv * thv)

/-- solvers.InitialGuess.city: a fresh SingleCityModel built from the
model's params, (sliced) physical_distances and population; its
__init__ sets N = 1. -/
def ModelState.city (m : ModelState) : ModelState :=
  { N := 1
    params := m.params
    population := m.population
    physDistFull := m.physical_distances
    cacheEqns := none
    cacheJac := none
    cacheSystem := none
    cacheVars := none
    numberCitiesAttr := none }

/-- Parameter names of the numeric functions sym.lambdify builds from
SingleCityModel._symbolic_args: (nominal_price_level,) + (f, beta, phi,
tau, elasticity_substitution). -/
def single_city_args : List String := ["P", "f", "beta", "phi", "tau", "theta"]

/-- SingleCityModel.solution property: call the three compiled solution
functions as fn(P0, **self.params) with P0 = ones(1) and stack
(P0, Y0, W0, M0); the call raises TypeError unless the params keys bind
exactly to the remaining parameters f, beta, phi, tau, theta. -/
def ModelState.solution (m : ModelState) : Except PyError (List ℝ) :=
  match py_call_bind single_city_args 1 (m.params.map Prod.fst) with
  | .error err => .error (.typeError err)
  | .ok _ =>
    let fv := (dict_get m.params "f").toNum
    let bv := (dict_get m.params "beta").toNum
    let pv := (dict_get m.params "phi").toNum
    let tv := (dict_get m.params "tau").toNum
    let thv := (dict_get m.params "theta").toFun 0
    let d := (m.physDistFull.getD 0 []).getD 0 0
    let pop := m.population.getD 0 0
    .ok [1, island_gdp d pop 1 fv bv pv tv thv,
         island_wage d pop 1 fv bv pv tv thv,
         island_firms pop fv bv thv]

/-- Modelled from the spec: SingleCityModel.compute_nominal_gdp is
called in solvers.py (IslandsGuess.guess, HotStartGuess._guess_next_city)
but is defined nowhere in the repository; per spec sections 4.4 and 4.6
it evaluates the closed-form island GDP at the given price level, the
given single-city population and the params. -/
def compute_nominal_gdp (m : ModelState) (P0 popArr : List ℝ)
    (params : List (String × PyVal)) : ℝ :=
  island_gdp ((m.physDistFull.getD 0 []).getD 0 0) (popArr.getD 0 0) (P0.getD 0 1)
    (dict_get params "f").toNum (dict_get params "beta").toNum
    (dict_get params "phi").toNum (dict_get params "tau").toNum
    ((dict_get params "theta").toFun 0)

/-- Modelled from the spec: SingleCityModel.compute_nominal_wage,
missing from the repository like compute_nominal_gdp; the closed-form
island wage. -/
def compute_nominal_wage (m : ModelState) (P0 popArr : List ℝ)
    (params : List (String × PyVal)) : ℝ :=
  island_wage ((m.physDistFull.getD 0 []).getD 0 0) (popArr.getD 0 0) (P0.getD 0 1)
    (dict_get params "f").toNum (dict_get params "beta").toNum
    (dict_get params "phi").toNum (dict_get params "tau").toNum
    ((dict_get params "theta").toFun 0)

/-- Modelled from the spec: SingleCityModel.compute_number_firms,
missing from the repository like compute_nominal_gdp; the closed-form
island firm count. -/
def compute_number_firms (m : ModelState) (P0 popArr : List ℝ)
    (params : List (String × PyVal)) : ℝ :=
  island_firms (popArr.getD 0 0)
    (dict_get params "f").toNum (dict_get params "beta").toNum
    ((dict_get params "theta").toFun 0)

/-- solvers.HotStartGuess._guess_next_city: the island guess for city h,
price level ones(1) plus the three closed-form values at the city's own
population self.city.population[h]. -/
def guess_next_city (ig_model : ModelState) (h : ℕ) :
    List ℝ × List ℝ × List ℝ × List ℝ :=
  let city := ig_model.city
  let tmp_population : List ℝ := [city.population.getD h 0]
  let P0 : List ℝ := [1]
  let Y0 : List ℝ := [compute_nominal_gdp city P0 tmp_population city.params]
  let W0 : List ℝ := [compute_nominal_wage city P0 tmp_population city.params]
  let M0 : List ℝ := [compute_number_firms city P0 tmp_population city.params]
  (P0, Y0, W0, M0)

/-- Result of scipy.optimize.root as used here: the solution array x and
the success flag. -/
structure SolveResult where
  x : List ℝ
  success : Bool

/-- One iteration of the loop in solvers.HotStartGuess.guess at
number_cities = k: split the current solution into the four blocks,
append the island guess for city k blockwise, assign
model.number_cities = k + 1, call the solver on the combined guess and
adopt result.x as the new solution.  The generic root-finder
(scipy.optimize.root inside Solver.solve) is the parameter solve. -/
def hot_start_step (solve : ModelState → List ℝ → SolveResult) (ig_model : ModelState)
    (st : ModelState × List ℝ) (k : ℕ) : ModelState × List ℝ :=
  let m := st.1
  let sol := st.2
  let Pp := sol.take (k - 1)
  let Yp := (sol.drop (k - 1)).take k
  let Wp := (sol.drop (2 * k - 1)).take k
  let Mp := sol.drop (3 * k - 1)
  let g := guess_next_city ig_model k
  let ig := (Pp ++ g.1) ++ (Yp ++ g.2.1) ++ (Wp ++ g.2.2.1) ++ (Mp ++ g.2.2.2)
  let m1 := m.set_number_cities (k + 1)
  let result := solve m1 ig
  (m1, result.x)

/-- solvers.HotStartGuess.guess: read the target city count from
self.model.number_cities, start from the SingleCityModel solution, run
the continuation loop for number_cities in range(1, target), and return
the final solution.  The loop adopts result.x unconditionally — the
source contains no result.success check and no raise. -/
def hot_start_guess (solve : ModelState → List ℝ → SolveResult) (ig_model : ModelState) :
    Except PyError (List ℝ) :=
  match ig_model.numberCitiesAttr with
  | none => .error (.attributeMissing "number_cities")
  | some target =>
    match ig_model.city.solution with
    | .error err => .error err
    | .ok sol0 =>
      .ok (((List.range' 1 (target - 1)).foldl (hot_start_step solve ig_model)
        (ig_model, sol0)).2)

end

/-! ### Helper lemmas -/

lemma list_sum_map_range (f : ℕ → ℝ) (n : ℕ) :
    ((List.range n).map f).sum = ∑ j in Finset.range n, f j := by
  induction n with
  | zero => simp
  | succ n ih =>
    rw [List.range_succ, List.map_append, List.sum_append, Finset.sum_range_succ, ih]
    simp

lemma getElem?_append_left {α : Type} (l₁ l₂ : List α) (n : ℕ) (h : n < l₁.length) :
    (l₁ ++ l₂)[n]? = l₁[n]? := by
  rw [List.getElem?_append, if_pos h]

lemma getElem?_append_shift {α : Type} (l₁ l₂ : List α) (n i : ℕ) (h : n = l₁.length + i) :
    (l₁ ++ l₂)[n]? = l₂[i]? := by
  subst h
  rw [List.getElem?_append, if_neg (by omega)]
  congr 1
  omega

lemma getElem?_map_range' {α : Type} (f : ℕ → α) (s n i : ℕ) (h : i < n) :
    ((List.range' s n).map f)[i]? = some (f (s + i)) := by
  rw [List.getElem?_map]
  simp [List.getElem?_range', h]

lemma getElem?_map_range {α : Type} (f : ℕ → α) (n i : ℕ) (h : i < n) :
    ((List.range n).map f)[i]? = some (f i) := by
  rw [List.getElem?_map]
  simp [List.getElem?_range, h]

/-! ### Claim C2: Walras' Law -/

/-- Claim C2: for every city count N and arbitrary symbolic values of
prices, GDP, wages, firm counts and parameters (any valuation e of the
placeholders, any stored data), the sum over all cities h of the
symbolic expression goods_market_clearing(h) = total_exports(h) -
total_imports(h) is identically zero. -/
theorem goods_market_clearing_sums_to_zero (m : ModelState) (e : Env) :
    ∑ h in Finset.range m.N, m.goods_market_clearing h e = 0 := by
  have key : ∀ h, m.goods_market_clearing h e =
      (∑ j in Finset.range m.N,
        e.M h * revenue (m.optimal_price h j) (quantity_demand (m.optimal_price h j) j) e)
      - ∑ j in Finset.range m.N,
        e.M j * revenue (m.optimal_price j h) (quantity_demand (m.optimal_price j h) h) e := by
    intro h
    simp [ModelState.goods_market_clearing, ModelState.total_exports,
      ModelState.total_imports, list_sum_map_range]
  have expand : ∑ h in Finset.range m.N, m.goods_market_clearing h e =
      (∑ h in Finset.range m.N, ∑ j in Finset.range m.N,
        e.M h * revenue (m.optimal_price h j) (quantity_demand (m.optimal_price h j) j) e)
      - ∑ h in Finset.range m.N, ∑ j in Finset.range m.N,
        e.M j * revenue (m.optimal_price j h) (quantity_demand (m.optimal_price j h) h) e := by
    rw [← Finset.sum_sub_distrib]
    exact Finset.sum_congr rfl (fun h _ => key h)
  rw [expand, Finset.sum_comm (s := Finset.range m.N) (t := Finset.range m.N)
    (f := fun h j =>
      e.M j * revenue (m.optimal_price j h) (quantity_demand (m.optimal_price j h) h) e)]
  exact sub_self _

/-! ### Claim C1: ordering of the variable and equation blocks -/

/-- Claim C1: for every Model, the symbolic variable list is P[1..N-1],
then Y[0..N-1], W[0..N-1], M[0..N-1] (length 4N-1), the symbolic
equation list is goods-market-clearing for 1..N-1 then total-profits,
labor-market-clearing and resource-constraint for 0..N-1 (length 4N-1),
and position i of the equation list corresponds blockwise to position i
of the variable list. -/
theorem symbolic_blocks_match (m : ModelState) :
    (symbolic_variables m.N).length = 4 * m.N - 1 ∧
    m.symbolic_equations.length = 4 * m.N - 1 ∧
    (∀ i, i < m.N - 1 →
      (symbolic_variables m.N)[i]? = some (SymVar.P (1 + i)) ∧
      m.symbolic_equations[i]? = some (m.goods_market_clearing (1 + i))) ∧
    (∀ i, i < m.N →
      ((symbolic_variables m.N)[(m.N - 1) + i]? = some (SymVar.Y i) ∧
       m.symbolic_equations[(m.N - 1) + i]? = some (m.total_profits i)) ∧
      ((symbolic_variables m.N)[(2 * m.N - 1) + i]? = some (SymVar.W i) ∧
       m.symbolic_equations[(2 * m.N - 1) + i]? = some (m.labor_market_clearing i)) ∧
      ((symbolic_variables m.N)[(3 * m.N - 1) + i]? = some (SymVar.M i) ∧
       m.symbolic_equations[(3 * m.N - 1) + i]? = some (m.resource_constraint i))) := by
  have lenTac : ∀ a b : ℕ, a = b → a = b := fun _ _ h => h
  refine ⟨?_, ?_, ?_, ?_⟩
  · simp [symbolic_variables]
    omega
  · simp [ModelState.symbolic_equations]
    omega
  · intro i hi
    constructor
    · rw [symbolic_variables,
        getElem?_append_left _ _ _
          (by simp only [List.length_append, List.length_map, List.length_range',
            List.length_range]; try omega),
        getElem?_append_left _ _ _
          (by simp only [List.length_append, List.length_map, List.length_range',
            List.length_range]; try omega),
        getElem?_append_left _ _ _
          (by simp only [List.length_map, List.length_range']; try omega),
        getElem?_map_range' _ _ _ _ hi]
    · rw [ModelState.symbolic_equations,
        getElem?_append_left _ _ _
          (by simp only [List.length_append, List.length_map, List.length_range',
            List.length_range]; try omega),
        getElem?_append_left _ _ _
          (by simp only [List.length_append, List.length_map, List.length_range',
            List.length_range]; try omega),
        getElem?_append_left _ _ _
          (by simp only [List.length_map, List.length_range']; try omega),
        getElem?_map_range' _ _ _ _ hi]
  · intro i hi
    refine ⟨⟨?_, ?_⟩, ⟨?_, ?_⟩, ⟨?_, ?_⟩⟩
    · rw [symbolic_variables,
        getElem?_append_left _ _ _
          (by simp only [List.length_append, List.length_map, List.length_range',
            List.length_range]; try omega),
        getElem?_append_left _ _ _
          (by simp only [List.length_append, List.length_map, List.length_range',
            List.length_range]; try omega),
        getElem?_append_shift _ _ _ i
          (by simp only [List.length_map, List.length_range']; try omega),
        getElem?_map_range _ _ _ hi]
    · rw [ModelState.symbolic_equations,
        getElem?_append_left _ _ _
          (by simp only [List.length_append, List.length_map, List.length_range',
            List.length_range]; try omega),
        getElem?_append_left _ _ _
          (by simp only [List.length_append, List.length_map, List.length_range',
            List.length_range]; try omega),
        getElem?_append_shift _ _ _ i
          (by simp only [List.length_map, List.length_range']; try omega),
        getElem?_map_range _ _ _ hi]
    · rw [symbolic_variables,
        getElem?_append_left _ _ _
          (by simp only [List.length_append, List.length_map, List.length_range',
            List.length_range]; try omega),
        getElem?_append_shift _ _ _ i
          (by simp only [List.length_append, List.length_map, List.length_range',
            List.length_range]; try omega),
        getElem?_map_range _ _ _ hi]
    · rw [ModelState.symbolic_equations,
        getElem?_append_left _ _ _
          (by simp only [List.length_append, List.length_map, List.length_range',
            List.length_range]; try omega),
        getElem?_append_shift _ _ _ i
          (by simp only [List.length_append, List.length_map, List.length_range',
            List.length_range]; try omega),
        getElem?_map_range _ _ _ hi]
    · rw [symbolic_variables,
        getElem?_append_shift _ _ _ i
          (by simp only [List.length_append, List.length_map, List.length_range',
            List.length_range]; try omega),
        getElem?_map_range _ _ _ hi]
    · rw [ModelState.symbolic_equations,
        getElem?_append_shift _ _ _ i
          (by simp only [List.length_append, List.length_map, List.length_range',
            List.length_range]; try omega),
        getElem?_map_range _ _ _ hi]

/-- Concrete witness model: two cities worth of data, N = 2. -/
noncomputable def modelTwo : ModelState :=
  { N := 2
    params := [("f", .num 1), ("beta", .num (131 / 100)), ("phi", .num (100 / 131)),
      ("tau", .num (1 / 20)), ("theta", .arr [10, 10])]
    population := [1000000, 500000]
    physDistFull := [[0, 1], [1, 0]]
    cacheEqns := none
    cacheJac := none
    cacheSystem := none
    cacheVars := none
    numberCitiesAttr := none }

/-- Witness for symbolic_blocks_match: at the two-city model, position 0
holds P[1] and the goods-market equation of city 1, and position
(N-1)+0 = 1 holds Y[0] and the total-profits equation of city 0. -/
theorem symbolic_blocks_match_witness :
    (0 < modelTwo.N - 1 ∧ 0 < modelTwo.N) ∧
    ((symbolic_variables modelTwo.N)[0]? = some (SymVar.P 1) ∧
      modelTwo.symbolic_equations[0]? = some (modelTwo.goods_market_clearing 1)) ∧
    ((symbolic_variables modelTwo.N)[(modelTwo.N - 1) + 0]? = some (SymVar.Y 0) ∧
      modelTwo.symbolic_equations[(modelTwo.N - 1) + 0]? = some (modelTwo.total_profits 0)) :=
  ⟨⟨by decide, by decide⟩,
    (symbolic_blocks_match modelTwo).2.2.1 0 (by decide),
    ((symbolic_blocks_match modelTwo).2.2.2 0 (by decide)).1⟩

/-! ### Claims C6 and C7: the params and N setters -/

/-- Claim C6 (amended): setting Model.params raises InvalidParams iff
the value is not a dict or the required keys {f, beta, phi, tau} (theta
is NOT among the required keys in the source) are not a subset of the
provided keys; on success the dict is stored unchanged, extra keys
tolerated. -/
theorem params_setter_required_subset (m : ModelState) (d : List (String × PyVal)) :
    m.set_params .nondict = .error .invalidParams ∧
    m.set_params (.dict d) =
      (if required_params.all (fun k => (d.map Prod.fst).contains k)
       then .ok { m with params := d } else .error .invalidParams) := by
  refine ⟨rfl, ?_⟩
  cases hc : required_params.all (fun k => (d.map Prod.fst).contains k) <;>
    simp only [ModelState.set_params, validate_params, hc, Except.map] <;> simp

/-- A params dict providing f, beta, phi and tau but no theta. -/
noncomputable def params_no_theta : List (String × PyVal) :=
  [("f", .num 1), ("beta", .num (131 / 100)), ("phi", .num (100 / 131)),
    ("tau", .num (1 / 20))]

/-- Counterexample to claim C6 as stated: a dict whose keys are exactly
{f, beta, phi, tau} — theta, which the claim lists among the required
keys, is absent — is accepted and stored unchanged by the params
setter instead of raising InvalidParams. -/
theorem params_without_theta_accepted :
    modelTwo.set_params (.dict params_no_theta) =
      .ok { modelTwo with params := params_no_theta } ∧
    "theta" ∉ params_no_theta.map Prod.fst := by
  constructor
  · rfl
  · decide

/-- Claim C7: the N setter raises InvalidCityCount exactly when the
assigned value is not an int or is an int below 1 (validation happens
in the setter itself, before anything is stored); a successful
assignment stores the value and resets all four cache slots to None, so
the equation and variable lists are rebuilt for the new N on the next
property access. -/
theorem n_setter_validates_and_clears_cache (m : ModelState) :
    m.set_N .notInt = .error .invalidCityCount ∧
    (∀ z : ℤ, m.set_N (.int z) =
      (if z < 1 then .error .invalidCityCount
       else .ok (ModelState.clear_cache { m with N := z.toNat }))) ∧
    (∀ w : ModelState,
      w.clear_cache.cacheEqns = none ∧ w.clear_cache.cacheJac = none ∧
      w.clear_cache.cacheSystem = none ∧ w.clear_cache.cacheVars = none ∧
      (w.clear_cache.access_symbolic_equations).1 = w.clear_cache.symbolic_equations ∧
      (w.clear_cache.access_symbolic_variables).1 = symbolic_variables w.N) := by
  refine ⟨rfl, ?_, ?_⟩
  · intro z
    by_cases hz : z < 1
    · simp only [ModelState.set_N, validate_number_cities, if_pos hz, Except.map]
    · simp only [ModelState.set_N, validate_number_cities, if_neg hz, Except.map]
  · intro w
    exact ⟨rfl, rfl, rfl, rfl, rfl, rfl⟩

/-! ### Claim C9: derived read-only properties -/

/-- Claim C9 (amended): economic_distances is exp(physical[:N,:N])^tau
elementwise with tau the symbolic placeholder; effective_labor_supply
is beta times the FULL stored population vector (its length is the
stored population length, not N; its first N entries are the claimed
beta * population[:N]); both are recomputed from the current attribute
values on every access, so they reflect a new population or distance
matrix immediately. -/
theorem derived_properties_recomputed (m : ModelState) (pnew : List ℝ)
    (Anew : List (List ℝ)) :
    m.economic_distances =
      ((m.physDistFull.take m.N).map (fun row => row.take m.N)).map
        (fun row => row.map (fun d => fun e => Real.exp d ^ e.tau)) ∧
    m.effective_labor_supply = m.population.map (fun p => fun e => e.beta * p) ∧
    m.effective_labor_supply.length = m.population.length ∧
    m.effective_labor_supply.take m.N =
      (m.population.take m.N).map (fun p => fun e => e.beta * p) ∧
    (m.set_population pnew).effective_labor_supply =
      pnew.map (fun p => fun e => e.beta * p) ∧
    (m.set_physical_distances Anew).economic_distances =
      ((Anew.take m.N).map (fun row => row.take m.N)).map
        (fun row => row.map (fun d => fun e => Real.exp d ^ e.tau)) ∧
    (m.set_population pnew).economic_distances = m.economic_distances ∧
    (m.set_physical_distances Anew).effective_labor_supply = m.effective_labor_supply := by
  refine ⟨rfl, rfl, ?_, ?_, rfl, rfl, rfl, rfl⟩
  · simp [ModelState.effective_labor_supply]
  · simp [ModelState.effective_labor_supply, List.map_take]

/-- A model whose stored population has more entries than N. -/
noncomputable def modelLongPop : ModelState :=
  { N := 1
    params := []
    population := [2, 3]
    physDistFull := [[0]]
    cacheEqns := none
    cacheJac := none
    cacheSystem := none
    cacheVars := none
    numberCitiesAttr := none }

/-- Counterexample to claim C9 as stated: with N = 1 and a stored
population of length 2, effective_labor_supply has length 2, not the
claimed length N. -/
theorem effective_labor_supply_not_sliced :
    modelLongPop.effective_labor_supply.length = 2 ∧ modelLongPop.N = 1 ∧
    modelLongPop.effective_labor_supply.length ≠ modelLongPop.N := by
  refine ⟨?_, rfl, ?_⟩
  · simp [ModelState.effective_labor_supply, modelLongPop]
  · simp [ModelState.effective_labor_supply, modelLongPop]

/-! ### Claim C10: only the N setter clears the caches -/

lemma access_equations_cached (m : ModelState) (eqs : List (Env → ℝ))
    (h : m.cacheEqns = some eqs) : m.access_symbolic_equations = (eqs, m) := by
  unfold ModelState.access_symbolic_equations
  rw [h]

lemma access_equations_snd_cache (m : ModelState) :
    (m.access_symbolic_equations).2.cacheEqns = some (m.access_symbolic_equations).1 := by
  unfold ModelState.access_symbolic_equations
  cases h : m.cacheEqns <;> simp [h]

lemma access_jacobian_cached (m : ModelState) (jac : List (List (Env → ℝ)))
    (h : m.cacheJac = some jac) : m.access_symbolic_jacobian = (jac, m) := by
  unfold ModelState.access_symbolic_jacobian
  rw [h]

lemma access_jacobian_snd_cache (m : ModelState) :
    (m.access_symbolic_jacobian).2.cacheJac = some (m.access_symbolic_jacobian).1 := by
  unfold ModelState.access_symbolic_jacobian
  cases h : m.cacheJac <;> simp [h]

/-- Claim C10: the params setter (on success), a population assignment
and a physical_distances assignment all leave the cached symbolic
equation list and Jacobian untouched; consequently, once the equations
have been built (first access with an empty cache yields the list built
from the data current at that moment), later accesses after changing
population or distances still return exactly that earlier list — the
stale expressions with the old concrete population and distance values
baked in — and likewise for the Jacobian. -/
theorem only_n_setter_clears_cache (m mp : ModelState) (v : ParamsArg) (pnew : List ℝ)
    (Anew : List (List ℝ)) (hp : m.set_params v = .ok mp)
    (hc : m.cacheEqns = none) :
    mp.cacheEqns = m.cacheEqns ∧ mp.cacheJac = m.cacheJac ∧
    (m.set_population pnew).cacheEqns = m.cacheEqns ∧
    (m.set_population pnew).cacheJac = m.cacheJac ∧
    (m.set_physical_distances Anew).cacheEqns = m.cacheEqns ∧
    (m.set_physical_distances Anew).cacheJac = m.cacheJac ∧
    (m.access_symbolic_equations).1 = m.symbolic_equations ∧
    (((m.access_symbolic_equations).2.set_population pnew).access_symbolic_equations).1 =
      (m.access_symbolic_equations).1 ∧
    (((m.access_symbolic_equations).2.set_physical_distances Anew).access_symbolic_equations).1 =
      (m.access_symbolic_equations).1 ∧
    (((m.access_symbolic_jacobian).2.set_population pnew).access_symbolic_jacobian).1 =
      (m.access_symbolic_jacobian).1 ∧
    (((m.access_symbolic_jacobian).2.set_physical_distances Anew).access_symbolic_jacobian).1 =
      (m.access_symbolic_jacobian).1 := by
  have hmp : mp.cacheEqns = m.cacheEqns ∧ mp.cacheJac = m.cacheJac := by
    rcases v with d | _
    · cases hcv : required_params.all (fun k => (d.map Prod.fst).contains k) <;>
        simp only [ModelState.set_params, validate_params, hcv, Except.map] at hp
      · simp at hp
      · cases hp
        exact ⟨rfl, rfl⟩
    · simp only [ModelState.set_params, validate_params, Except.map] at hp
      simp at hp
  refine ⟨hmp.1, hmp.2, rfl, rfl, rfl, rfl, ?_, ?_, ?_, ?_, ?_⟩
  · unfold ModelState.access_symbolic_equations
    rw [hc]
  · rw [access_equations_cached ((m.access_symbolic_equations).2.set_population pnew)
      (m.access_symbolic_equations).1 (access_equations_snd_cache m)]
  · rw [access_equations_cached
      ((m.access_symbolic_equations).2.set_physical_distances Anew)
      (m.access_symbolic_equations).1 (access_equations_snd_cache m)]
  · rw [access_jacobian_cached ((m.access_symbolic_jacobian).2.set_population pnew)
      (m.access_symbolic_jacobian).1 (access_jacobian_snd_cache m)]
  · rw [access_jacobian_cached
      ((m.access_symbolic_jacobian).2.set_physical_distances Anew)
      (m.access_symbolic_jacobian).1 (access_jacobian_snd_cache m)]

/-- Witness for only_n_setter_clears_cache: the two-city model with an
empty cache and a params reassignment. -/
theorem only_n_setter_clears_cache_witness :
    (modelTwo.set_params (.dict params_no_theta) =
      .ok { modelTwo with params := params_no_theta } ∧ modelTwo.cacheEqns = none) ∧
    ({ modelTwo with params := params_no_theta } : ModelState).cacheEqns =
      modelTwo.cacheEqns ∧
    (modelTwo.access_symbolic_equations).1 = modelTwo.symbolic_equations :=
  ⟨⟨rfl, rfl⟩,
    (only_n_setter_clears_cache modelTwo { modelTwo with params := params_no_theta }
      (.dict params_no_theta) [1] [[0]] rfl rfl).1,
    (only_n_setter_clears_cache modelTwo { modelTwo with params := params_no_theta }
      (.dict params_no_theta) [1] [[0]] rfl rfl).2.2.2.2.2.2.1⟩

/-! ### Claim C3: Solver.system -/

/-- The test-suite single-city configuration (test_model.test_residual
flow): N = 1, a validated params dict with all five keys, and
model.number_cities assigned 1 through the initial-guess object. -/
noncomputable def modelOneCity : ModelState :=
  { N := 1
    params := [("f", .num 1), ("beta", .num (131 / 100)), ("phi", .num (100 / 131)),
      ("tau", .num (1 / 20)), ("theta", .arr [10])]
    population := [1000000]
    physDistFull := [[0]]
    cacheEqns := none
    cacheJac := none
    cacheSystem := none
    cacheVars := none
    numberCitiesAttr := some 1 }

/-- Claim C3 (code bug): Solver.system passes self.model.population as
a fifth positional argument to the compiled system function, but
Model._symbolic_args gives that function the parameters
(P, Y, W, M, f, beta, phi, tau, theta) — no population placeholder —
so the population array binds to the parameter f and the keyword
argument f from **self.model.params then collides: the call raises
TypeError (multiple values for argument f) instead of returning a
residual.  Evaluated here at the one-city test configuration and an
arbitrary concrete X. -/
theorem solver_system_population_collides_with_f :
    modelOneCity.solver_system [1, 1, 1] =
      .error (.typeError (.multipleValues "f")) ∧
    "population" ∉ symbolic_args_names := by
  exact ⟨rfl, by decide⟩

/-! ### Claims C4 and C5: HotStartGuess -/

/-- A solver oracle that reports success and returns the guess
unchanged. -/
noncomputable def solver_reports_success : ModelState → List ℝ → SolveResult :=
  fun _ x => ⟨x, true⟩

/-- A solver oracle with the same solution array that reports failure. -/
noncomputable def solver_reports_failure : ModelState → List ℝ → SolveResult :=
  fun _ x => ⟨x, false⟩

/-- A solver oracle that diverges: it reports non-convergence and hands
back a junk iterate. -/
noncomputable def diverging_solver : ModelState → List ℝ → SolveResult :=
  fun _ _ => ⟨[0, 0, 0, 0, 0, 0, 0], false⟩

/-- Two-city data with hot_start target number_cities = 1. -/
noncomputable def modelHotOne : ModelState :=
  { N := 1
    params := [("f", .num 1), ("beta", .num (131 / 100)), ("phi", .num (100 / 131)),
      ("tau", .num (1 / 20)), ("theta", .arr [10, 10])]
    population := [1000000, 500000]
    physDistFull := [[0, 1], [1, 0]]
    cacheEqns := none
    cacheJac := none
    cacheSystem := none
    cacheVars := none
    numberCitiesAttr := some 1 }

/-- Two-city data with hot_start target number_cities = 2. -/
noncomputable def modelHotTwo : ModelState :=
  { modelHotOne with numberCitiesAttr := some 2 }

/-- Claim C4 (code bug): the continuation step does not solve the
(k+1)-city system.  The loop's assignment model.number_cities = k + 1
creates a plain attribute and leaves Model.N (the attribute the
symbolic system is built from) unchanged, so at the first step the
model handed to the solver still carries the 3 equations of the
original N = 1, not the 7 equations of a 2-city system; moreover the
seed self.city.solution is the length-4 vector (P0, Y0, W0, M0)
although the unknown vector of an N = 1 system has length 4N-1 = 3, so
for target 1 guess returns a length-4 vector. -/
theorem hot_start_step_system_not_rebuilt :
    (modelHotOne.set_number_cities 2).N = 1 ∧
    (modelHotOne.set_number_cities 2).symbolic_equations.length = 3 ∧
    (3 : ℕ) ≠ 4 * 2 - 1 ∧
    (hot_start_guess solver_reports_success modelHotOne).map List.length = .ok 4 ∧
    (4 : ℕ) ≠ 4 * 1 - 1 := by
  refine ⟨rfl, ?_, by decide, ?_, by decide⟩
  · simp [ModelState.symbolic_equations, ModelState.set_number_cities, modelHotOne]
  · rfl

/-- Claim C5 (amended): HotStartGuess.guess never inspects the
solver's convergence flag — two solvers returning the same iterates
but opposite success flags produce identical guesses. -/
theorem hot_start_ignores_success (s1 s2 : ModelState → List ℝ → SolveResult)
    (hx : ∀ mm x, (s1 mm x).x = (s2 mm x).x) (ig_model : ModelState) :
    hot_start_guess s1 ig_model = hot_start_guess s2 ig_model := by
  have step_eq : ∀ st k, hot_start_step s1 ig_model st k = hot_start_step s2 ig_model st k := by
    intro st k
    unfold hot_start_step
    simp only [hx]
  have fold_eq : ∀ (l : List ℕ) st,
      l.foldl (hot_start_step s1 ig_model) st = l.foldl (hot_start_step s2 ig_model) st := by
    intro l
    induction l with
    | nil => intro st; rfl
    | cons a t ih =>
      intro st
      simp only [List.foldl, step_eq, ih]
  unfold hot_start_guess
  cases ig_model.numberCitiesAttr with
  | none => rfl
  | some target =>
    cases ig_model.city.solution with
    | error err => rfl
    | ok sol0 => simp only [fold_eq]

/-- Witness for hot_start_ignores_success: the success-reporting and
failure-reporting oracles agree on iterates, so the guesses coincide. -/
theorem hot_start_ignores_success_witness :
    (∀ mm x, (solver_reports_success mm x).x = (solver_reports_failure mm x).x) ∧
    hot_start_guess solver_reports_success modelHotTwo =
      hot_start_guess solver_reports_failure modelHotTwo :=
  ⟨fun _ _ => rfl,
    hot_start_ignores_success solver_reports_success solver_reports_failure
      (fun _ _ => rfl) modelHotTwo⟩

/-- Counterexample to claim C5 as stated: with a solver that reports
non-convergence at continuation step k = 1, HotStartGuess.guess raises
nothing — it adopts the non-converged iterate as the solution and
returns it. -/
theorem hot_start_continues_after_divergence :
    hot_start_guess diverging_solver modelHotTwo = .ok [0, 0, 0, 0, 0, 0, 0] := by
  rfl

/-! ### Claim C8: exactness of the single-city analytic solution -/

/-- Physical self-distance entry of city 0 in the stored matrix. -/
noncomputable def ModelState.dist00 (m : ModelState) : ℝ :=
  (m.physDistFull.getD 0 []).getD 0 0

/-- Population of city 0. -/
noncomputable def ModelState.pop0 (m : ModelState) : ℝ :=
  m.population.getD 0 0

/-- The valuation at the SingleCityModel analytic solution point: price
level fixed at 1.0, (Y0, W0, M0) the closed-form island values, and the
parameter placeholders at the given numbers. -/
noncomputable def island_env (m : ModelState) (fv bv pv tv thv : ℝ) : Env :=
  { P := fun _ => 1
    Y := fun _ => island_gdp m.dist00 m.pop0 1 fv bv pv tv thv
    W := fun _ => island_wage m.dist00 m.pop0 1 fv bv pv tv thv
    M := fun _ => island_firms m.pop0 fv bv thv
    f := fv
    beta := bv
    phi := pv
    tau := tv
    theta := fun _ => thv }

lemma island_wage_pos (d pop P fv bv pv tv thv : ℝ) (hP : 0 < P) (hf : 0 < fv)
    (hb : 0 < bv) (hpv : 0 < pv) (hth : 1 < thv) (hpop : 0 < pop) :
    0 < island_wage d pop P fv bv pv tv thv := by
  have hdel : 0 < Real.exp d ^ tv := Real.rpow_pos_of_pos (Real.exp_pos d) tv
  have ha : 0 < pv / Real.exp d ^ tv := div_pos hpv hdel
  have hmu : 0 < thv / (thv - 1) := div_pos (by linarith) (by linarith)
  have hK : 0 < pv / Real.exp d ^ tv * fv * (thv - 1) * P *
      (thv / (thv - 1) / (pv / Real.exp d ^ tv * P)) ^ thv / (bv * pop) := by
    apply div_pos
    · exact mul_pos (mul_pos (mul_pos (mul_pos ha hf) (by linarith)) hP)
        (Real.rpow_pos_of_pos (div_pos hmu (mul_pos ha hP)) thv)
    · exact mul_pos hb hpop
  exact Real.rpow_pos_of_pos hK _

lemma island_wage_pow (d pop P fv bv pv tv thv : ℝ) (hP : 0 < P) (hf : 0 < fv)
    (hb : 0 < bv) (hpv : 0 < pv) (hth : 1 < thv) (hpop : 0 < pop) :
    island_wage d pop P fv bv pv tv thv ^ (1 - thv) =
      pv / Real.exp d ^ tv * fv * (thv - 1) * P *
        (thv / (thv - 1) / (pv / Real.exp d ^ tv * P)) ^ thv / (bv * pop) := by
  have hdel : 0 < Real.exp d ^ tv := Real.rpow_pos_of_pos (Real.exp_pos d) tv
  have ha : 0 < pv / Real.exp d ^ tv := div_pos hpv hdel
  have hmu : 0 < thv / (thv - 1) := div_pos (by linarith) (by linarith)
  have hK : 0 < pv / Real.exp d ^ tv * fv * (thv - 1) * P *
      (thv / (thv - 1) / (pv / Real.exp d ^ tv * P)) ^ thv / (bv * pop) := by
    apply div_pos
    · exact mul_pos (mul_pos (mul_pos (mul_pos ha hf) (by linarith)) hP)
        (Real.rpow_pos_of_pos (div_pos hmu (mul_pos ha hP)) thv)
    · exact mul_pos hb hpop
  unfold island_wage
  rw [← Real.rpow_mul hK.le]
  have hone : 1 / (1 - thv) * (1 - thv) = 1 := by
    have hne : (1 : ℝ) - thv ≠ 0 := ne_of_lt (by linarith)
    rw [one_div, inv_mul_cancel₀ hne]
  rw [hone, Real.rpow_one]

/-- The demanded quantity at the island solution point equals
a * f * (theta - 1), the value forced by the zero-profit condition. -/
lemma island_quantity (d pop fv bv pv tv thv : ℝ) (hf : 0 < fv) (hb : 0 < bv)
    (hpv : 0 < pv) (hth : 1 < thv) (hpop : 0 < pop) :
    (thv / (thv - 1) * (island_wage d pop 1 fv bv pv tv thv / (pv / Real.exp d ^ tv))) ^
        (-thv) * (bv * pop * island_wage d pop 1 fv bv pv tv thv) =
      pv / Real.exp d ^ tv * fv * (thv - 1) := by
  have hdel : 0 < Real.exp d ^ tv := Real.rpow_pos_of_pos (Real.exp_pos d) tv
  have ha : 0 < pv / Real.exp d ^ tv := div_pos hpv hdel
  have hmu : 0 < thv / (thv - 1) := div_pos (by linarith) (by linarith)
  have hW : 0 < island_wage d pop 1 fv bv pv tv thv :=
    island_wage_pos d pop 1 fv bv pv tv thv one_pos hf hb hpv hth hpop
  have hB : 0 < thv / (thv - 1) / (pv / Real.exp d ^ tv * 1) :=
    div_pos hmu (mul_pos ha one_pos)
  have hS : 0 < bv * pop := mul_pos hb hpop
  have hbase : thv / (thv - 1) * (island_wage d pop 1 fv bv pv tv thv / (pv / Real.exp d ^ tv)) =
      thv / (thv - 1) / (pv / Real.exp d ^ tv * 1) * island_wage d pop 1 fv bv pv tv thv := by
    field_simp
    ring
  have hWW : island_wage d pop 1 fv bv pv tv thv ^ (-thv) *
      island_wage d pop 1 fv bv pv tv thv =
      island_wage d pop 1 fv bv pv tv thv ^ (1 - thv) := by
    rw [show (1 : ℝ) - thv = -thv + 1 by ring, Real.rpow_add hW, Real.rpow_one]
  have hBB : (thv / (thv - 1) / (pv / Real.exp d ^ tv * 1)) ^ (-thv) *
      (thv / (thv - 1) / (pv / Real.exp d ^ tv * 1)) ^ thv = 1 := by
    rw [← Real.rpow_add hB]
    simp
  calc (thv / (thv - 1) * (island_wage d pop 1 fv bv pv tv thv / (pv / Real.exp d ^ tv))) ^
        (-thv) * (bv * pop * island_wage d pop 1 fv bv pv tv thv)
      = (thv / (thv - 1) / (pv / Real.exp d ^ tv * 1)) ^ (-thv) *
          island_wage d pop 1 fv bv pv tv thv ^ (-thv) *
          (bv * pop * island_wage d pop 1 fv bv pv tv thv) := by
        rw [hbase, Real.mul_rpow hB.le hW.le]
    _ = (thv / (thv - 1) / (pv / Real.exp d ^ tv * 1)) ^ (-thv) * (bv * pop) *
          (island_wage d pop 1 fv bv pv tv thv ^ (-thv) *
            island_wage d pop 1 fv bv pv tv thv) := by
        ring
    _ = (thv / (thv - 1) / (pv / Real.exp d ^ tv * 1)) ^ (-thv) * (bv * pop) *
          (pv / Real.exp d ^ tv * fv * (thv - 1) * 1 *
            (thv / (thv - 1) / (pv / Real.exp d ^ tv * 1)) ^ thv / (bv * pop)) := by
        rw [hWW, island_wage_pow d pop 1 fv bv pv tv thv one_pos hf hb hpv hth hpop]
    _ = ((thv / (thv - 1) / (pv / Real.exp d ^ tv * 1)) ^ (-thv) *
          (thv / (thv - 1) / (pv / Real.exp d ^ tv * 1)) ^ thv) *
          (bv * pop / (bv * pop)) * (pv / Real.exp d ^ tv * fv * (thv - 1)) := by
        ring
    _ = pv / Real.exp d ^ tv * fv * (thv - 1) := by
        rw [hBB, div_self hS.ne']
        ring

lemma list_range_one : List.range 1 = [0] := rfl

lemma matEntry_dist00 (m : ModelState) (hN : m.N = 1) (hrow : m.physDistFull ≠ [])
    (hcol : m.physDistFull.getD 0 [] ≠ []) :
    matEntry m.economic_distances 0 0 = fun e => Real.exp m.dist00 ^ e.tau := by
  cases hl : m.physDistFull with
  | nil => exact absurd hl hrow
  | cons r rest =>
    cases hr : r with
    | nil =>
      refine absurd ?_ hcol
      rw [hl, hr]
      rfl
    | cons x cols =>
      unfold matEntry ModelState.economic_distances ModelState.physical_distances
        ModelState.dist00
      rw [hl, hr, hN]
      simp

lemma rowEntry_labor (m : ModelState) (hpopne : m.population ≠ []) :
    rowEntry m.effective_labor_supply 0 = fun e => e.beta * m.pop0 := by
  cases hp : m.population with
  | nil => exact absurd hp hpopne
  | cons p tl =>
    unfold rowEntry ModelState.effective_labor_supply ModelState.pop0
    rw [hp]
    simp

/-- Claim C8 (amended): for a single-city model, every equation of the
reduced 3-equation system (total_profits, labor_market_clearing,
resource_constraint) evaluates to exactly zero at the analytic solution
point — price level 1.0 and the closed-form (Y0, W0, M0) — under the
positivity preconditions of the model parameters.  (Solver.system
itself cannot return this zero residual: its call into the compiled
system raises TypeError, see the C3 record.) -/
theorem island_solution_zero_residual (m : ModelState) (fv bv pv tv thv : ℝ)
    (hN : m.N = 1)
    (hrow : m.physDistFull ≠ []) (hcol : m.physDistFull.getD 0 [] ≠ [])
    (hpopne : m.population ≠ [])
    (hf : 0 < fv) (hb : 0 < bv) (hpv : 0 < pv) (hth : 1 < thv) (hpop : 0 < m.pop0) :
    m.symbolic_equations.length = 3 ∧
    ∀ eq ∈ m.symbolic_equations, eq (island_env m fv bv pv tv thv) = 0 := by
  have hmat := matEntry_dist00 m hN hrow hcol
  have hrow0 := rowEntry_labor m hpopne
  have hW := island_wage_pos m.dist00 m.pop0 1 fv bv pv tv thv one_pos hf hb hpv hth hpop
  have hq := island_quantity m.dist00 m.pop0 fv bv pv tv thv hf hb hpv hth hpop
  have hdel : 0 < Real.exp m.dist00 ^ tv := Real.rpow_pos_of_pos (Real.exp_pos _) tv
  have hane : pv / Real.exp m.dist00 ^ tv ≠ 0 := (div_pos hpv hdel).ne'
  have hthne : thv ≠ 0 := ne_of_gt (by linarith)
  have hth1ne : thv - 1 ≠ 0 := ne_of_gt (by linarith)
  constructor
  · simp [ModelState.symbolic_equations, hN]
  · intro eq heq
    simp only [ModelState.symbolic_equations, hN, Nat.sub_self, List.range'_zero,
      list_range_one, List.map_nil, List.map_cons, List.nil_append, List.cons_append,
      List.mem_cons, List.not_mem_nil, or_false] at heq
    rcases heq with h | h | h <;> subst h
    · simp only [ModelState.total_profits, ModelState.total_revenue, ModelState.total_cost,
        ModelState.total_variable_cost, total_fixed_cost, ModelState.variable_cost,
        ModelState.variable_labor_demand, ModelState.optimal_price, ModelState.marginal_costs,
        ModelState.labor_productivity, mark_up, quantity_demand, relative_price, real_gdp,
        revenue, hmat, hN, list_range_one, List.map_cons, List.map_nil, List.sum_cons,
        List.sum_nil, island_env, island_gdp, add_zero, div_one]
      rw [hq]
      field_simp
      ring
    · simp only [ModelState.labor_market_clearing, ModelState.total_labor_demand,
        ModelState.total_variable_labor_demand, total_fixed_labor_demand,
        ModelState.variable_labor_demand, ModelState.optimal_price, ModelState.marginal_costs,
        ModelState.labor_productivity, mark_up, quantity_demand, relative_price, real_gdp,
        hrow0, hmat, hN, list_range_one, List.map_cons, List.map_nil, List.sum_cons,
        List.sum_nil, island_env, island_gdp, island_firms, add_zero, div_one]
      rw [hq]
      field_simp
      ring
    · simp only [ModelState.resource_constraint, hrow0, island_env, island_gdp]
      ring

/-- Witness for island_solution_zero_residual: the concrete one-city
test configuration with parameters f = 1, beta = 1, phi = 1, tau = 0,
theta = 2. -/
theorem island_solution_zero_residual_witness :
    (modelOneCity.N = 1 ∧ (0 : ℝ) < 1 ∧ (1 : ℝ) < 2 ∧ 0 < modelOneCity.pop0) ∧
    (modelOneCity.symbolic_equations.length = 3 ∧
      ∀ eq ∈ modelOneCity.symbolic_equations, eq (island_env modelOneCity 1 1 1 0 2) = 0) :=
  ⟨⟨rfl, one_pos, one_lt_two, by simp [ModelState.pop0, modelOneCity]⟩,
    island_solution_zero_residual modelOneCity 1 1 1 0 2 rfl
      (by simp [modelOneCity]) (by simp [modelOneCity]) (by simp [modelOneCity])
      one_pos one_pos one_pos one_lt_two (by simp [ModelState.pop0, modelOneCity])⟩

/-- Counterexample to claim C8 as stated: at the analytic solution
point (price level 1.0 prepended inside system, X the closed-form
(Y0, W0, M0) of the one-city test configuration), Solver.system does
not return a zero residual vector — its call into the compiled system
function raises TypeError, because the population array passed
positionally binds to the parameter f which **params supplies again. -/
theorem solver_system_fails_at_island_solution :
    modelOneCity.solver_system
      [island_gdp modelOneCity.dist00 modelOneCity.pop0 1 1 (131 / 100) (100 / 131)
        (1 / 20) 10,
       island_wage modelOneCity.dist00 modelOneCity.pop0 1 1 (131 / 100) (100 / 131)
        (1 / 20) 10,
       island_firms modelOneCity.pop0 1 (131 / 100) 10] =
      .error (.typeError (.multipleValues "f")) := by
  rfl

end WealthOfCities
